import Mathlib

/-!
Shallow embedding of the cinder volume-control core, translated from
src/cinder/volume/api.py together with the entity schema of
src/cinder/db/sqlalchemy/models.py.  External collaborators of that
module (the entity repository, the quota manager, the policy engine,
the dispatch channel and the image service) are modelled explicitly:
the repository as state passing over a `Db` value, the quota manager
and dispatch channel as event logs produced by each operation, and the
policy engine and image service as oracle functions carried in the
context/environment.  Python exceptions become an `Err` sum type and
fallible operations return `Except` or a result record that carries
an `Except` next to the final state and the emitted events.
-/

namespace Cinder

/-- Exception classes raised by cinder/volume/api.py (cinder.exception),
plus generic Python runtime errors that untyped calls can raise. -/
inductive Err where
  | policyNotAuthorized
  | invalidInput (reason : String)
  | invalidSnapshot (reason : String)
  | invalidVolume (reason : String)
  | volumeSizeExceedsAvailableQuota
  | volumeLimitExceeded (allowed : Int)
  | notFound
  | typeError (msg : String)
  | nameError (msg : String)
  deriving DecidableEq, Repr

/-- Volume row, fields from class Volume in models.py that the control
core reads or writes (timestamps modelled as abstract ticks; the
metadata rows of the VolumeMetadata table are carried inline as
key/value pairs belonging to this volume). -/
structure Volume where
  id : String
  user_id : String
  project_id : String
  snapshot_id : Option String
  host : Option String
  size : Int
  availability_zone : Option String
  instance_uuid : Option String
  mountpoint : Option String
  status : String
  attach_status : String
  terminated_at : Option Nat
  display_name : Option String
  display_description : Option String
  volume_type_id : Option Int
  backend_id : Option Int
  deleted : Bool
  metadata_rows : List (String × String)
  deriving DecidableEq, Repr

/-- Snapshot row, fields from class Snapshot in models.py used by the
control core (deleted is the soft-delete flag of CinderBase). -/
structure Snapshot where
  id : String
  volume_id : String
  user_id : String
  project_id : String
  status : String
  progress : Option String
  volume_size : Int
  display_name : Option String
  display_description : Option String
  deleted : Bool
  deriving DecidableEq, Repr

/-- Persistent store handled by the entity repository collaborator.
backends models the volume_backends table (name, id) used by
volume_backend_get_by_name; nextId supplies fresh primary keys. -/
structure Db where
  volumes : List Volume
  snapshots : List Snapshot
  backends : List (String × Int)
  nextId : Nat
  deriving DecidableEq, Repr

/-- Modelled from the spec: repository get — fails (None here) when the
entity is absent or soft-deleted. -/
def volume_get (st : Db) (vid : String) : Option Volume :=
  st.volumes.find? (fun v => v.id == vid && !v.deleted)

/-- Modelled from the spec: repository listing of all non-deleted volumes. -/
def volume_get_all (st : Db) : List Volume :=
  st.volumes.filter (fun v => !v.deleted)

/-- Modelled from the spec: repository listing scoped to one project. -/
def volume_get_all_by_project (st : Db) (pid : String) : List Volume :=
  st.volumes.filter (fun v => !v.deleted && v.project_id == pid)

/-- Field assignments a controller operation can hand to the repository
update call (the values dict of db.volume_update). -/
inductive FieldAssign where
  | status (v : String)
  | attach_status (v : String)
  | terminated_at (v : Option Nat)
  | host (v : Option String)
  | instance_uuid (v : Option String)
  | mountpoint (v : Option String)
  | size (v : Int)
  | display_name (v : Option String)
  | display_description (v : Option String)
  deriving DecidableEq, Repr

def applyAssign (v : Volume) : FieldAssign → Volume
  | .status s => { v with status := s }
  | .attach_status s => { v with attach_status := s }
  | .terminated_at t => { v with terminated_at := t }
  | .host h => { v with host := h }
  | .instance_uuid u => { v with instance_uuid := u }
  | .mountpoint m => { v with mountpoint := m }
  | .size n => { v with size := n }
  | .display_name n => { v with display_name := n }
  | .display_description d => { v with display_description := d }

def applyAssigns (fields : List FieldAssign) (v : Volume) : Volume :=
  fields.foldl applyAssign v

/-- Modelled from the spec: repository pass-through field update — sets
exactly the named fields of the stored entity, leaving the rest alone. -/
def volume_update (st : Db) (vid : String) (fields : List FieldAssign) : Db :=
  { st with volumes :=
      st.volumes.map (fun v => if v.id == vid then applyAssigns fields v else v) }

/-- Modelled from the spec: repository destroy — the entity is absent from
a subsequent get (soft-delete flag set, as the sqlalchemy layer does). -/
def volume_destroy (st : Db) (vid : String) : Db :=
  { st with volumes :=
      st.volumes.map (fun v => if v.id == vid then { v with deleted := true } else v) }

/-- Modelled from the spec: repository listing of the non-deleted
snapshots referencing a volume. -/
def snapshot_get_all_for_volume (st : Db) (vid : String) : List Snapshot :=
  st.snapshots.filter (fun s => !s.deleted && s.volume_id == vid)

/-- Modelled from the spec: repository get for snapshots. -/
def snapshot_get (st : Db) (sid : String) : Option Snapshot :=
  st.snapshots.find? (fun s => s.id == sid && !s.deleted)

/-- Modelled from the spec: the metadata rows stored for a volume,
returned by db.volume_metadata_get as a mapping. -/
def volume_metadata_get (st : Db) (vid : String) : List (String × String) :=
  match volume_get st vid with
  | some v => v.metadata_rows
  | none => []

/-- Modelled from the spec: db.volume_metadata_update with delete=True
replaces the full stored metadata map of the volume. -/
def volume_metadata_update (st : Db) (vid : String) (m : List (String × String)) : Db :=
  { st with volumes :=
      st.volumes.map (fun v => if v.id == vid then { v with metadata_rows := m } else v) }

/-- Modelled from the spec: repository lookup of a backend row by name. -/
def volume_backend_get_by_name (st : Db) (name : String) : Option Int :=
  (st.backends.find? (fun b => b.1 == name)).map (fun b => b.2)

/-- Request context: caller identity plus the policy-engine oracle
(cinder.policy.enforce reduced to allow/deny per action name). -/
structure Ctx where
  project_id : String
  user_id : String
  is_admin : Bool
  policyOk : String → Bool

/-- Process-wide configuration flags read by volume/api.py. -/
structure Flags where
  snapshot_same_host : Bool
  storage_availability_zone : String
  volume_topic : String
  scheduler_topic : String
  deriving DecidableEq, Repr

/-- Reservation token handed out by the quota manager: the deltas it holds. -/
structure Reservation where
  volumes : Int
  gigabytes : Int
  deriving DecidableEq, Repr

/-- Payload of an OverQuota exception: which counters exceeded, and the
quota limits the handler reads back out of it. -/
structure OverPayload where
  overs : List String
  volumesQuota : Int
  gigabytesQuota : Int
  deriving DecidableEq, Repr

/-- Observable calls made to the quota-manager collaborator. -/
inductive QuotaEvent where
  | reserve (volumes gigabytes : Int) (granted : Bool)
  | commit (r : Reservation)
  | rollback (r : Reservation)
  deriving DecidableEq, Repr

/-- Net change the operation applied to the committed (in-use) volume
counter of the project: only commit calls move reserved quota there. -/
def committedVolumesDelta (evs : List QuotaEvent) : Int :=
  evs.foldl (fun acc e => match e with | .commit r => acc + r.volumes | _ => acc) 0

/-- Net change applied to the committed gigabyte counter. -/
def committedGigabytesDelta (evs : List QuotaEvent) : Int :=
  evs.foldl (fun acc e => match e with | .commit r => acc + r.gigabytes | _ => acc) 0

def isRollback : QuotaEvent → Bool
  | .rollback _ => true
  | _ => false

def isCommit : QuotaEvent → Bool
  | .commit _ => true
  | _ => false

/-- Environment of external collaborators: configuration, the image
service (show reduced to the byte size the metadata reports, None when
the image is absent) and the quota-manager decision for the single
reserve call an operation issues. -/
structure Env where
  flags : Flags
  imageShow : String → Option Nat
  reserveOutcome : Except OverPayload Unit

/-- Fire-and-forget message handed to the dispatch channel. -/
structure Cast where
  topic : String
  method : String
  argTopic : Option String := none
  argVolumeId : Option String := none
  argSnapshotId : Option String := none
  argImageId : Option String := none
  deriving DecidableEq, Repr

/-- rpc.queue_get_for: base topic dot host (Python renders a missing
host as the string None). -/
def queue_get_for (topic : String) (host : Option String) : String :=
  topic ++ "." ++ (match host with | some h => h | none => "None")

/-- GB constant of volume/api.py line 46. -/
def GB : Nat := 1048576 * 1024

/-- The size argument of create as the caller may pass it: an integer,
a string, or Python None. -/
inductive SizeArg where
  | int (n : Int)
  | str (s : String)
  | pynone
  deriving DecidableEq, Repr

/-- Python truthiness of the size argument (the `not size` test). -/
def sizeTruthy : SizeArg → Bool
  | .int n => n != 0
  | .str s => s != ""
  | .pynone => false

/-- Python truthiness of an optional string (None and the empty string
are falsy). -/
def pyTruthyOptStr : Option String → Bool
  | none => false
  | some s => s != ""

/-- Whitespace characters Python int() tolerates around the digits. -/
def pySpace (c : Char) : Bool :=
  c == ' ' || (9 ≤ c.toNat && c.toNat ≤ 13)

def pyTrimChars (cs : List Char) : List Char :=
  ((cs.dropWhile pySpace).reverse.dropWhile pySpace).reverse

/-- One or more decimal digits, or nothing. -/
def parseDigits (cs : List Char) : Option Nat :=
  if !cs.isEmpty && cs.all Char.isDigit then
    some (cs.foldl (fun acc c => acc * 10 + (c.toNat - 48)) 0)
  else
    none

/-- Python int() applied to a string: optional surrounding whitespace,
optional sign, one or more digits; anything else raises ValueError
(None here). -/
def pyParseInt (s : String) : Option Int :=
  match pyTrimChars s.data with
  | '-' :: rest => (parseDigits rest).map (fun n => -(n : Int))
  | '+' :: rest => (parseDigits rest).map (fun n => (n : Int))
  | t => (parseDigits t).map (fun n => (n : Int))

/-- The local helper as_int of create: int(s), returning s unchanged when
int() raises ValueError.  Python int(None) raises TypeError, which the
helper does not catch. -/
def as_int : SizeArg → Except Err SizeArg
  | .int n => .ok (.int n)
  | .str s =>
      match pyParseInt s with
      | some n => .ok (.int n)
      | none => .ok (.str s)
  | .pynone => .error (.typeError "int() argument is None")

/-- Rendering of the size argument inside the InvalidInput message
(quoting of the original message dropped). -/
def sizeRepr : SizeArg → String
  | .int n => toString n
  | .str s => s
  | .pynone => "None"

/-- Result record of an operation that can mutate the store, talk to the
quota manager and dispatch casts. -/
structure CreateOut where
  result : Except Err Volume
  db : Db
  quotaEvents : List QuotaEvent
  casts : List Cast

/-- Volume-type dict of create: only its id entry is read (get with
default None). -/
structure VolumeType where
  id : Option Int
  deriving DecidableEq, Repr

/-- _cast_create_volume: snapshot with same-host affinity routes directly
to the source volume host topic, otherwise to the scheduler topic. -/
def castCreateVolume (env : Env) (st : Db) (volume_id : String)
    (snapshot_id image_id : Option String) : Except Err (List Cast) :=
  if pyTruthyOptStr snapshot_id && env.flags.snapshot_same_host then
    match snapshot_get st (snapshot_id.getD "") with
    | none => .error .notFound
    | some snapshot_ref =>
        match volume_get st snapshot_ref.volume_id with
        | none => .error .notFound
        | some src_volume_ref =>
            .ok [{ topic := queue_get_for env.flags.volume_topic src_volume_ref.host
                   method := "create_volume"
                   argVolumeId := some volume_id
                   argSnapshotId := snapshot_id
                   argImageId := image_id }]
  else
    .ok [{ topic := env.flags.scheduler_topic
           method := "create_volume"
           argTopic := some env.flags.volume_topic
           argVolumeId := some volume_id
           argSnapshotId := snapshot_id
           argImageId := image_id }]

/-- Snapshot branch of create (api.py lines 86-95): precondition on the
snapshot status, size inheritance for a falsy size argument, and the
snapshot id to persist. -/
def snapshotStep (size0 : SizeArg) (snapshot : Option Snapshot) :
    Except Err (SizeArg × Option String) :=
  match snapshot with
  | some snap =>
      if snap.status != "available" then
        .error (.invalidSnapshot "status must be available")
      else if !(sizeTruthy size0) then
        .ok (.int snap.volume_size, some snap.id)
      else
        .ok (size0, some snap.id)
  | none => .ok (size0, none)

/-- Size coercion and validation of create (api.py lines 97-109). -/
def sizeStep (size1 : SizeArg) : Except Err Int :=
  match as_int size1 with
  | .error e => .error e
  | .ok (.int n) =>
      if n ≤ 0 then
        .error (.invalidInput ("Volume size " ++ toString n ++
          " must be an integer and greater than 0"))
      else .ok n
  | .ok (.str s) =>
      .error (.invalidInput ("Volume size " ++ s ++
        " must be an integer and greater than 0"))
  | .ok .pynone =>
      .error (.invalidInput "Volume size None must be an integer and greater than 0")

/-- Outcome of the quota reserve call of create. -/
inductive ReserveResult where
  | proceed (reservations : Option Reservation) (ev : List QuotaEvent)
  | failed (e : Err) (ev : List QuotaEvent)

/-- Quota reserve with error translation (api.py lines 110-133): a granted
reservation proceeds; OverQuota is translated in fixed order, gigabytes
before volume count.  When neither counter is flagged the handler falls
through without raising, leaving the reservations local unbound —
modelled as proceeding with none, so the later commit raises NameError. -/
def reserveStep (env : Env) (n : Int) : ReserveResult :=
  match env.reserveOutcome with
  | .ok _ => .proceed (some ⟨1, n⟩) [.reserve 1 n true]
  | .error payload =>
      if payload.overs.contains "gigabytes" then
        .failed .volumeSizeExceedsAvailableQuota [.reserve 1 n false]
      else if payload.overs.contains "volumes" then
        .failed (.volumeLimitExceeded payload.volumesQuota) [.reserve 1 n false]
      else
        .proceed none [.reserve 1 n false]

/-- Image existence and size check of create (api.py lines 135-142):
ceiling division of the reported byte size by GB, compared against the
requested size. -/
def imageStep (env : Env) (image_id : Option String) (size : Int) :
    Except Err Unit :=
  if pyTruthyOptStr image_id then
    match env.imageShow (image_id.getD "") with
    | none => .error .notFound
    | some bytes =>
        if (((bytes + GB - 1) / GB : Nat) : Int) > size then
          .error (.invalidInput "Size of specified image is larger than volume size.")
        else .ok ()
  else .ok ()

/-- Backend name resolution of create (api.py lines 152-155). -/
def backendStep (st : Db) (backend : Option String) : Except Err (Option Int) :=
  match backend with
  | none => .ok none
  | some bname =>
      match volume_backend_get_by_name st bname with
      | none => .error .notFound
      | some bid => .ok (some bid)

/-- The Volume record persisted by create (api.py lines 157-172). -/
def newVolume (ctx : Ctx) (env : Env) (st : Db) (size : Int)
    (name description : Option String) (snapshot_id : Option String)
    (volume_type : Option VolumeType)
    (metadata : Option (List (String × String)))
    (availability_zone : Option String) (backend_id : Option Int) : Volume :=
  { id := "volume-" ++ toString st.nextId
    user_id := ctx.user_id
    project_id := ctx.project_id
    snapshot_id := snapshot_id
    host := none
    size := size
    availability_zone := some (match availability_zone with
      | none => env.flags.storage_availability_zone
      | some z => z)
    instance_uuid := none
    mountpoint := none
    status := "creating"
    attach_status := "detached"
    terminated_at := none
    display_name := name
    display_description := description
    volume_type_id := (match volume_type with
      | none => none
      | some t => t.id)
    backend_id := backend_id
    deleted := false
    metadata_rows := metadata.getD [] }

/-- Tail of create after the quota reserve call: image-size check,
backend lookup, persist, commit, dispatch.  reservations is none
exactly when the reserve call failed without raising one of the two
translated quota errors. -/
def createAfterReserve (ctx : Ctx) (env : Env) (st : Db) (size : Int)
    (name description : Option String) (snapshot_id : Option String)
    (image_id : Option String) (volume_type : Option VolumeType)
    (metadata : Option (List (String × String)))
    (availability_zone : Option String) (backend : Option String)
    (reservations : Option Reservation) (ev : List QuotaEvent) : CreateOut :=
  match imageStep env image_id size with
  | .error e => ⟨.error e, st, ev, []⟩
  | .ok _ =>
    match backendStep st backend with
    | .error e => ⟨.error e, st, ev, []⟩
    | .ok backend_id =>
      let vol := newVolume ctx env st size name description snapshot_id
        volume_type metadata availability_zone backend_id
      let st1 : Db := { st with volumes := st.volumes ++ [vol], nextId := st.nextId + 1 }
      match reservations with
      | none => ⟨.error (.nameError "reservations"), st1, ev, []⟩
      | some r =>
          match castCreateVolume env st1 vol.id snapshot_id image_id with
          | .error e => ⟨.error e, st1, ev ++ [QuotaEvent.commit r], []⟩
          | .ok casts => ⟨.ok vol, st1, ev ++ [QuotaEvent.commit r], casts⟩

/-- API.create of volume/api.py: policy check, snapshot precondition and
size inheritance, size coercion and validation, quota reserve with
error translation, then the persist/commit/dispatch tail. -/
def create (ctx : Ctx) (env : Env) (st : Db) (size0 : SizeArg)
    (name description : Option String) (snapshot : Option Snapshot)
    (image_id : Option String) (volume_type : Option VolumeType)
    (metadata : Option (List (String × String)))
    (availability_zone : Option String) (backend : Option String) : CreateOut :=
  if !(ctx.policyOk "create") then
    ⟨.error .policyNotAuthorized, st, [], []⟩
  else
    match snapshotStep size0 snapshot with
    | .error e => ⟨.error e, st, [], []⟩
    | .ok (size1, snapshot_id) =>
      match sizeStep size1 with
      | .error e => ⟨.error e, st, [], []⟩
      | .ok n =>
        match reserveStep env n with
        | .failed e ev => ⟨.error e, st, ev, []⟩
        | .proceed reservations ev =>
            createAfterReserve ctx env st n name description snapshot_id
              image_id volume_type metadata availability_zone backend
              reservations ev

/-- Result record of a void operation. -/
structure OpOut where
  result : Except Err Unit
  db : Db
  quotaEvents : List QuotaEvent
  casts : List Cast

/-- API.delete of volume/api.py: hostless volumes are destroyed at once
after a best-effort negative quota reservation; otherwise the status
precondition and the dependent-snapshot check guard the transition to
deleting followed by the dispatch cast. -/
def delete (ctx : Ctx) (env : Env) (st : Db) (now : Nat)
    (volume : Volume) (force : Bool) : OpOut :=
  if !(ctx.policyOk "delete") then ⟨.error .policyNotAuthorized, st, [], []⟩
  else
    let volume_id := volume.id
    if !(pyTruthyOptStr volume.host) then
      let reserved :=
        match env.reserveOutcome with
        | .ok _ => (some (⟨-1, -volume.size⟩ : Reservation),
                    [QuotaEvent.reserve (-1) (-volume.size) true])
        | .error _ => ((none : Option Reservation),
                    [QuotaEvent.reserve (-1) (-volume.size) false])
      let st1 := volume_destroy st volume_id
      match reserved.1 with
      | some r => ⟨.ok (), st1, reserved.2 ++ [QuotaEvent.commit r], []⟩
      | none => ⟨.ok (), st1, reserved.2, []⟩
    else if !force && !(volume.status == "available" || volume.status == "error") then
      ⟨.error (.invalidVolume "Volume status must be available or error"), st, [], []⟩
    else
      let snapshots := snapshot_get_all_for_volume st volume_id
      if snapshots.length != 0 then
        ⟨.error (.invalidVolume ("Volume still has " ++ toString snapshots.length ++
           " dependent snapshots")), st, [], []⟩
      else
        let st1 := volume_update st volume_id
          [.status "deleting", .terminated_at (some now)]
        ⟨.ok (), st1, [],
          [{ topic := queue_get_for env.flags.volume_topic volume.host
             method := "delete_volume"
             argVolumeId := some volume_id }]⟩

/-- API.update: policy-gated pass-through field update. -/
def update (ctx : Ctx) (st : Db) (volume : Volume)
    (fields : List FieldAssign) : Except Err Db :=
  if !(ctx.policyOk "update") then .error .policyNotAuthorized
  else .ok (volume_update st volume.id fields)

/-- API.get: repository get then policy check on the fetched volume. -/
def get (ctx : Ctx) (st : Db) (volume_id : String) : Except Err Volume :=
  match volume_get st volume_id with
  | none => .error .notFound
  | some v =>
      if !(ctx.policyOk "get") then .error .policyNotAuthorized else .ok v

/-- Scalar value of a Python volume-dict entry. -/
inductive PyV where
  | vstr (s : String)
  | vint (n : Int)
  | vnone
  deriving DecidableEq, Repr

def optStrV : Option String → PyV
  | none => .vnone
  | some s => .vstr s

def optIntV : Option Int → PyV
  | none => .vnone
  | some n => .vint n

/-- Lookup volume.get(name) over the scalar fields of the volume dict;
None result stands for the not_found sentinel of get_all, which never
compares equal to a filter value. -/
def fieldGet (v : Volume) : String → Option PyV
  | "id" => some (.vstr v.id)
  | "user_id" => some (.vstr v.user_id)
  | "project_id" => some (.vstr v.project_id)
  | "snapshot_id" => some (optStrV v.snapshot_id)
  | "host" => some (optStrV v.host)
  | "size" => some (.vint v.size)
  | "availability_zone" => some (optStrV v.availability_zone)
  | "instance_uuid" => some (optStrV v.instance_uuid)
  | "mountpoint" => some (optStrV v.mountpoint)
  | "status" => some (.vstr v.status)
  | "attach_status" => some (.vstr v.attach_status)
  | "display_name" => some (optStrV v.display_name)
  | "display_description" => some (optStrV v.display_description)
  | "volume_type_id" => some (optIntV v.volume_type_id)
  | "backend_id" => some (optIntV v.backend_id)
  | _ => none

/-- Value of one search filter: a scalar compared for equality, or the
mapping the specialized metadata filter takes. -/
inductive FilterVal where
  | val (p : PyV)
  | map (m : List (String × String))
  deriving DecidableEq, Repr

/-- Python-dict lookup over the metadata rows: the last row with the key
wins, as successive dict assignment overwrites earlier rows. -/
def metaLookup (rows : List (String × String)) (k : String) : Option String :=
  (rows.reverse.find? (fun p => p.1 == k)).map (fun p => p.2)

/-- _check_metadata_match of get_all: every key/value pair of the search
dict must be present in the metadata map built from the volume rows. -/
def checkMetadataMatch (v : Volume) (searchdict : List (String × String)) : Bool :=
  searchdict.all (fun kv => metaLookup v.metadata_rows kv.1 == some kv.2)

/-- One filter applied to one volume: the metadata key selects the
specialized matcher, every other key is an exact-match comparison with
the field of that name (the source raises on a non-mapping metadata
value, unreachable for well-formed filter sets and modelled as
no-match; a mapping never compares equal to a scalar field). -/
def matchOne (v : Volume) (kv : String × FilterVal) : Bool :=
  if kv.1 == "metadata" then
    match kv.2 with
    | .map m => checkMetadataMatch v m
    | .val _ => false
  else
    match kv.2 with
    | .val p => fieldGet v kv.1 == some p
    | .map _ => false

def hasKey (opts : List (String × FilterVal)) (k : String) : Bool :=
  opts.any (fun kv => kv.1 == k)

def eraseKey (opts : List (String × FilterVal)) (k : String) :
    List (String × FilterVal) :=
  opts.filter (fun kv => kv.1 != k)

/-- API.get_all: admin callers carrying the all_tenants key have it
removed and see every project, all other callers are scoped to their
own project with the filter set untouched; the surviving filters are
then applied conjunctively. -/
def get_all (ctx : Ctx) (st : Db)
    (search_opts : List (String × FilterVal)) : Except Err (List Volume) :=
  if !(ctx.policyOk "get_all") then .error .policyNotAuthorized
  else
    let scope :=
      if ctx.is_admin && hasKey search_opts "all_tenants" then
        (eraseKey search_opts "all_tenants", volume_get_all st)
      else
        (search_opts, volume_get_all_by_project st ctx.project_id)
    if scope.1.isEmpty then .ok scope.2
    else .ok (scope.2.filter (fun v => scope.1.all (matchOne v)))

/-- API.check_attach. -/
def check_attach (ctx : Ctx) (volume : Volume) : Except Err Unit :=
  if !(ctx.policyOk "check_attach") then .error .policyNotAuthorized
  else if volume.status != "available" then
    .error (.invalidVolume "status must be available")
  else if volume.attach_status == "attached" then
    .error (.invalidVolume "already attached")
  else .ok ()

/-- API.check_detach. -/
def check_detach (ctx : Ctx) (volume : Volume) : Except Err Unit :=
  if !(ctx.policyOk "check_detach") then .error .policyNotAuthorized
  else if volume.status == "available" then
    .error (.invalidVolume "already detached")
  else .ok ()

/-- API.reserve_volume: unconditional update of the status to attaching
(the nested self.update call re-checks the update policy). -/
def reserve_volume (ctx : Ctx) (st : Db) (volume : Volume) : Except Err Db :=
  if !(ctx.policyOk "reserve_volume") then .error .policyNotAuthorized
  else update ctx st volume [.status "attaching"]

/-- API.unreserve_volume: back to available only when the passed record
shows attaching. -/
def unreserve_volume (ctx : Ctx) (st : Db) (volume : Volume) : Except Err Db :=
  if !(ctx.policyOk "unreserve_volume") then .error .policyNotAuthorized
  else if volume.status == "attaching" then
    update ctx st volume [.status "available"]
  else .ok st

/-- API.begin_detaching: unconditional update of the status to detaching. -/
def begin_detaching (ctx : Ctx) (st : Db) (volume : Volume) : Except Err Db :=
  if !(ctx.policyOk "begin_detaching") then .error .policyNotAuthorized
  else update ctx st volume [.status "detaching"]

/-- API.roll_detaching: writes in-use only when the passed record shows
detaching, otherwise a no-op. -/
def roll_detaching (ctx : Ctx) (st : Db) (volume : Volume) : Except Err Db :=
  if !(ctx.policyOk "roll_detaching") then .error .policyNotAuthorized
  else if volume.status == "detaching" then
    update ctx st volume [.status "in-use"]
  else .ok st

/-- Argument actually handed to get_volume_metadata: the decorated
signature expects the volume mapping, but one caller inside the module
passes the id string instead. -/
inductive VolArg where
  | vol (v : Volume)
  | idStr (s : String)

/-- API.get_volume_metadata.  When the caller passes the id string in
place of the volume mapping, the policy wrapper merges a string into
the target dict and the body subscripts the string with the id key:
both are runtime type errors in Python, modelled as one type error. -/
def get_volume_metadata (ctx : Ctx) (st : Db) (volume : VolArg) :
    Except Err (List (String × String)) :=
  if !(ctx.policyOk "get_volume_metadata") then .error .policyNotAuthorized
  else
    match volume with
    | .vol v => .ok (volume_metadata_get st v.id)
    | .idStr _ => .error (.typeError "string passed where a volume mapping is required")

/-- Python dict.update: keys of the update overwrite in place, new keys
are appended in order. -/
def dictUpdate (base upd : List (String × String)) : List (String × String) :=
  (base.map (fun kv =>
      match metaLookup upd kv.1 with
      | some nv => (kv.1, nv)
      | none => kv)) ++
    upd.filter (fun kv => !(base.any (fun b => b.1 == kv.1)))

/-- API.update_volume_metadata: with delete true the supplied mapping
replaces the stored map; otherwise the source fetches the existing map
through get_volume_metadata — passing volume of the id key, the id
string, where the callee expects the volume mapping — and merges. -/
def update_volume_metadata (ctx : Ctx) (st : Db) (volume : Volume)
    (metadata : List (String × String)) (delete : Bool) :
    Except Err (List (String × String) × Db) :=
  if !(ctx.policyOk "update_volume_metadata") then .error .policyNotAuthorized
  else
    match (if delete then Except.ok metadata
           else
             match get_volume_metadata ctx st (.idStr volume.id) with
             | .error e => Except.error e
             | .ok base => Except.ok (dictUpdate base metadata)) with
    | .error e => .error e
    | .ok m => .ok (m, volume_metadata_update st volume.id m)

/-- The positive integer the size argument coerces to under the as_int
helper, when it does: the size-validation gate of create passes exactly
the arguments on which this is some value. -/
def coerceSize (s : SizeArg) : Option Int :=
  match as_int s with
  | .ok (.int n) => if 0 < n then some n else none
  | _ => none

/-- Declarative reading of one get_all filter, following the spec words:
the metadata key demands every pair of the filter mapping be present in
the volume metadata map, any other key is an exact match against the
field of that name. -/
def MatchesFilter (v : Volume) (kv : String × FilterVal) : Prop :=
  if kv.1 = "metadata" then
    ∃ m, kv.2 = FilterVal.map m ∧ ∀ p ∈ m, metaLookup v.metadata_rows p.1 = some p.2
  else
    ∃ p, kv.2 = FilterVal.val p ∧ fieldGet v kv.1 = some p

/-! Concrete fixtures used by the evaluation theorems and witnesses. -/

def allowAll : String → Bool := fun _ => true

def ctxP1 : Ctx := ⟨"p1", "u1", false, allowAll⟩

def ctxAdmin : Ctx := ⟨"p0", "u0", true, allowAll⟩

def flagsNoAffinity : Flags := ⟨false, "nova", "cinder-volume", "cinder-scheduler"⟩

def db0 : Db := ⟨[], [], [], 0⟩

def imgSvc3GB : String → Option Nat :=
  fun i => if i == "img-3gb" then some (3 * GB) else none

def envReserveOk : Env := ⟨flagsNoAffinity, imgSvc3GB, .ok ()⟩

/-- create call of claim C1: size 2, an image of 3 GiB, quota reserve
granted. -/
def c1out : CreateOut :=
  create ctxP1 envReserveOk db0 (.int 2) (some "name") (some "descr")
    none (some "img-3gb") none none none none

/-- Hostless volume with one non-deleted snapshot, for claims C2 and C5. -/
def vHostless : Volume :=
  ⟨"vol-h", "u1", "p1", none, none, 1, some "nova", none, none,
   "available", "detached", none, none, none, none, none, false, []⟩

def snapOfHostless : Snapshot :=
  ⟨"snap-h", "vol-h", "u1", "p1", "available", none, 1, none, none, false⟩

def dbHostless : Db := ⟨[vHostless], [snapOfHostless], [], 9⟩

/-- Hosted in-use volume with one non-deleted snapshot, for claim C2. -/
def vInUseHosted : Volume :=
  ⟨"vol-i", "u1", "p1", none, some "h1", 1, some "nova", none, none,
   "in-use", "attached", none, none, none, none, none, false, []⟩

def snapOfHosted : Snapshot :=
  ⟨"snap-i", "vol-i", "u1", "p1", "available", none, 1, none, none, false⟩

def dbHosted : Db := ⟨[vInUseHosted], [snapOfHosted], [], 9⟩

/-- Volume with stored metadata, for claim C4. -/
def vMeta : Volume :=
  ⟨"vol-m", "u1", "p1", none, some "h1", 1, some "nova", none, none,
   "available", "detached", none, none, none, none, none, false, [("a", "1")]⟩

def dbMeta : Db := ⟨[vMeta], [], [], 7⟩

/-- Available snapshot of volume size 3, for the C6 counterexample. -/
def snapAvail : Snapshot :=
  ⟨"snap-1", "vol-src", "u1", "p1", "available", some "0%", 3, none, none, false⟩

/-- create call of the C6 counterexample: falsy size (empty string) with
an available snapshot supplied. -/
def c6ceOut : CreateOut :=
  create ctxP1 envReserveOk db0 (.str "") (some "n") none (some snapAvail)
    none none none none none

def imgSvcExact2GB : String → Option Nat :=
  fun i => if i == "img-2gb" then some (2 * 1024 * 1024 * 1024) else none

/-- Environment whose image service reports exactly 2 GiB, for the C7
boundary witness. -/
def envExactImage : Env := ⟨flagsNoAffinity, imgSvcExact2GB, .ok ()⟩

/-! Helper lemmas about the repository model. -/

theorem applyAssign_id (v : Volume) (f : FieldAssign) :
    (applyAssign v f).id = v.id := by
  cases f <;> rfl

theorem applyAssign_deleted (v : Volume) (f : FieldAssign) :
    (applyAssign v f).deleted = v.deleted := by
  cases f <;> rfl

theorem applyAssigns_id (fs : List FieldAssign) (v : Volume) :
    (applyAssigns fs v).id = v.id := by
  induction fs generalizing v with
  | nil => rfl
  | cons f fs ih => simpa [applyAssigns, List.foldl_cons, applyAssign_id] using
      (applyAssign_id v f ▸ ih (applyAssign v f))

theorem applyAssigns_deleted (fs : List FieldAssign) (v : Volume) :
    (applyAssigns fs v).deleted = v.deleted := by
  induction fs generalizing v with
  | nil => rfl
  | cons f fs ih => simpa [applyAssigns, List.foldl_cons, applyAssign_deleted] using
      (applyAssign_deleted v f ▸ ih (applyAssign v f))

/-- Updating a volume rewrites exactly the stored record of that id. -/
theorem volume_get_volume_update_self (st : Db) (vid : String)
    (fs : List FieldAssign) :
    volume_get (volume_update st vid fs) vid =
      (volume_get st vid).map (applyAssigns fs) := by
  unfold volume_get volume_update
  rw [List.find?_map]
  have hpf : ((fun v : Volume => v.id == vid && !v.deleted) ∘
      (fun v : Volume => if v.id == vid then applyAssigns fs v else v)) =
      (fun v : Volume => v.id == vid && !v.deleted) := by
    funext v
    by_cases h : v.id = vid
    · simp [Function.comp, h, applyAssigns_id, applyAssigns_deleted]
    · simp [Function.comp, h]
  rw [hpf]
  cases hf : st.volumes.find? (fun v => v.id == vid && !v.deleted) with
  | none => rfl
  | some a =>
      have hp := List.find?_some hf
      have hid : (a.id == vid) = true := ((Bool.and_eq_true _ _).mp hp).1
      simp only [Option.map_some']
      rw [hid]
      simp

/-- Updating one volume leaves records of other ids untouched. -/
theorem volume_get_volume_update_other (st : Db) (vid vid' : String)
    (fs : List FieldAssign) (h : vid' ≠ vid) :
    volume_get (volume_update st vid fs) vid' = volume_get st vid' := by
  unfold volume_get volume_update
  rw [List.find?_map]
  have hpf : ((fun v : Volume => v.id == vid' && !v.deleted) ∘
      (fun v : Volume => if v.id == vid then applyAssigns fs v else v)) =
      (fun v : Volume => v.id == vid' && !v.deleted) := by
    funext v
    by_cases hv : v.id = vid
    · simp [Function.comp, hv, applyAssigns_id, applyAssigns_deleted]
    · simp [Function.comp, hv]
  rw [hpf]
  cases hf : st.volumes.find? (fun v => v.id == vid' && !v.deleted) with
  | none => rfl
  | some a =>
      have hp := List.find?_some hf
      have hid : (a.id == vid') = true := ((Bool.and_eq_true _ _).mp hp).1
      have haid : a.id = vid' := by simpa using hid
      have hne : (a.id == vid) = false := by
        simp [haid]
        exact h
      simp only [Option.map_some']
      rw [hne]
      simp

/-- A destroyed volume is absent from a subsequent get. -/
theorem volume_get_volume_destroy (st : Db) (vid : String) :
    volume_get (volume_destroy st vid) vid = none := by
  unfold volume_get volume_destroy
  rw [List.find?_map]
  have hnone : st.volumes.find? ((fun v : Volume => v.id == vid && !v.deleted) ∘
      (fun v : Volume => if v.id == vid then { v with deleted := true } else v)) = none := by
    rw [List.find?_eq_none]
    intro v _
    by_cases h : v.id = vid
    · simp [Function.comp, h]
    · simp [Function.comp, h]
  rw [hnone]
  rfl

/-- The expression of the image check is the ceiling of b over g, and it
strictly exceeds s exactly when b strictly exceeds s times g. -/
theorem addPredDiv_gt_iff (g s b : Nat) (hg : 0 < g) :
    ((b + g - 1) / g > s) ↔ s * g < b := by
  have h := Nat.le_div_iff_mul_le (k := g) hg (x := s + 1) (y := b + g - 1)
  constructor
  · intro hgt
    have h2 := h.mp hgt
    rw [add_mul, one_mul] at h2
    generalize s * g = P at h2 ⊢
    omega
  · intro hlt
    apply h.mpr
    rw [add_mul, one_mul]
    generalize s * g = P at hlt ⊢
    omega

/-- A size whose coercion is no positive integer is rejected by the size
gate with an InvalidInput, for every argument other than None. -/
theorem sizeStep_of_coerce_none (s : SizeArg) (hnn : s ≠ .pynone)
    (h : coerceSize s = none) :
    ∃ msg, sizeStep s = .error (.invalidInput msg) := by
  cases s with
  | pynone => exact absurd rfl hnn
  | int n =>
      by_cases hk : 0 < n
      · simp [coerceSize, as_int, hk] at h
      · exact ⟨"Volume size " ++ toString n ++ " must be an integer and greater than 0",
          by simp [sizeStep, as_int, Int.not_lt.mp hk]⟩
  | str s2 =>
      cases hps : pyParseInt s2 with
      | none => exact ⟨"Volume size " ++ s2 ++ " must be an integer and greater than 0",
          by simp [sizeStep, as_int, hps]⟩
      | some k =>
          by_cases hk : 0 < k
          · simp [coerceSize, as_int, hps, hk] at h
          · exact ⟨"Volume size " ++ toString k ++ " must be an integer and greater than 0",
              by simp [sizeStep, as_int, hps, Int.not_lt.mp hk]⟩

/-- A size whose coercion is a positive integer passes the size gate with
exactly that integer. -/
theorem sizeStep_of_coerce_some (s : SizeArg) (n : Int)
    (h : coerceSize s = some n) : sizeStep s = .ok n := by
  cases s with
  | pynone => simp [coerceSize, as_int] at h
  | int k =>
      by_cases hk : 0 < k
      · have : k = n := by simpa [coerceSize, as_int, hk] using h
        subst this
        simp [sizeStep, as_int, Int.not_le.mpr hk]
      · simp [coerceSize, as_int, hk] at h
  | str s2 =>
      cases hps : pyParseInt s2 with
      | none => simp [coerceSize, as_int, hps] at h
      | some k =>
          by_cases hk : 0 < k
          · have : k = n := by simpa [coerceSize, as_int, hps, hk] using h
            subst this
            simp [sizeStep, as_int, hps, Int.not_le.mpr hk]
          · simp [coerceSize, as_int, hps, hk] at h

/-- A create call without snapshot that fails the size gate returns its
error with nothing reserved, nothing dispatched and the store intact. -/
theorem create_sizeStep_error (ctx : Ctx) (env : Env) (st : Db) (size0 : SizeArg)
    (name description : Option String) (image_id : Option String)
    (vt : Option VolumeType) (md : Option (List (String × String)))
    (az : Option String) (backend : Option String) (e : Err)
    (hpol : ctx.policyOk "create" = true)
    (hsz : sizeStep size0 = .error e) :
    create ctx env st size0 name description none image_id vt md az backend =
      ⟨.error e, st, [], []⟩ := by
  simp [create, snapshotStep, hpol, hsz]

/-- A create call without snapshot that passes the size gate under a
granted reservation runs the post-reserve tail with that reservation. -/
theorem create_sizeStep_ok (ctx : Ctx) (env : Env) (st : Db) (size0 : SizeArg)
    (n : Int) (name description : Option String) (image_id : Option String)
    (vt : Option VolumeType) (md : Option (List (String × String)))
    (az : Option String) (backend : Option String)
    (hpol : ctx.policyOk "create" = true)
    (hres : env.reserveOutcome = .ok ())
    (hsz : sizeStep size0 = .ok n) :
    create ctx env st size0 name description none image_id vt md az backend =
      createAfterReserve ctx env st n name description none image_id vt md az
        backend (some ⟨1, n⟩) [.reserve 1 n true] := by
  simp [create, snapshotStep, hpol, hsz, reserveStep, hres]

/-- The post-reserve tail of a plain create (no image, no backend, no
snapshot id) persists the new volume, commits, and casts to the
scheduler. -/
theorem createAfterReserve_plain (ctx : Ctx) (env : Env) (st : Db) (n : Int)
    (name description : Option String) (vt : Option VolumeType)
    (md : Option (List (String × String))) (az : Option String)
    (r : Reservation) (ev : List QuotaEvent) :
    createAfterReserve ctx env st n name description none none vt md az none
        (some r) ev =
      ⟨.ok (newVolume ctx env st n name description none vt md az none),
       { st with
          volumes := st.volumes ++ [newVolume ctx env st n name description none vt md az none]
          nextId := st.nextId + 1 },
       ev ++ [QuotaEvent.commit r],
       [{ topic := env.flags.scheduler_topic
          method := "create_volume"
          argTopic := some env.flags.volume_topic
          argVolumeId := some ("volume-" ++ toString st.nextId)
          argSnapshotId := none
          argImageId := none }]⟩ := rfl

/-! Claims. -/

/-- C1: the claim states that a create call whose validation fails after a
successful quota reserve (the oversized-image InvalidInput in
particular) rolls the reservation back before the error propagates.
The code never calls rollback: evaluating create at size 2 with a 3 GiB
image and a granted reservation shows the InvalidInput error leaving
with the reserve event granted, no rollback event, no commit event and
the store untouched.  The committed counters indeed show zero net
change, but only because the commit is also skipped — the reservation
itself is left dangling, contradicting the stated rollback discipline. -/
theorem claim_C1_reservation_not_rolled_back :
    c1out.result =
      .error (.invalidInput "Size of specified image is larger than volume size.") ∧
    c1out.quotaEvents = [.reserve 1 2 true] ∧
    c1out.quotaEvents.any isRollback = false ∧
    c1out.quotaEvents.any isCommit = false ∧
    committedVolumesDelta c1out.quotaEvents = 0 ∧
    committedGigabytesDelta c1out.quotaEvents = 0 ∧
    c1out.db = db0 := by
  exact ⟨rfl, rfl, rfl, rfl, rfl, rfl, rfl⟩

/-- C2 counterexample: the claim asserts that delete on any volume with a
non-deleted snapshot fails with an InvalidVolume carrying the snapshot
count, whether or not a host is assigned.  On a hostless volume with
one snapshot, delete succeeds and destroys the volume; and on a hosted
in-use volume with one snapshot and no force flag, delete does fail,
but with the status message rather than the snapshot-count message. -/
theorem claim_C2_counterexample :
    snapshot_get_all_for_volume dbHostless "vol-h" = [snapOfHostless] ∧
    (delete ctxP1 envReserveOk dbHostless 5 vHostless false).result = .ok () ∧
    volume_get (delete ctxP1 envReserveOk dbHostless 5 vHostless false).db "vol-h" = none ∧
    (delete ctxP1 envReserveOk dbHosted 5 vInUseHosted false).result =
      .error (.invalidVolume "Volume status must be available or error") := by
  exact ⟨rfl, rfl, rfl, rfl⟩

/-- C2 amended: for every volume with an assigned host whose status
precondition passes (force, or status available or error), delete on a
volume with one or more non-deleted snapshots fails with InvalidVolume
whose message encodes the snapshot count, and the store — hence the
volume — is left completely unchanged, with nothing dispatched. -/
theorem claim_C2_amended (ctx : Ctx) (env : Env) (st : Db) (now : Nat)
    (v : Volume) (force : Bool)
    (hpol : ctx.policyOk "delete" = true)
    (hhost : pyTruthyOptStr v.host = true)
    (hstatus : force = true ∨ v.status = "available" ∨ v.status = "error")
    (hsnap : snapshot_get_all_for_volume st v.id ≠ []) :
    (delete ctx env st now v force).result =
      .error (.invalidVolume ("Volume still has " ++
        toString (snapshot_get_all_for_volume st v.id).length ++
        " dependent snapshots")) ∧
    (delete ctx env st now v force).db = st ∧
    (delete ctx env st now v force).casts = [] := by
  have hcond : (!force && !(v.status == "available" || v.status == "error")) = false := by
    rcases hstatus with h | h | h <;> simp [h]
  have hlen : ((snapshot_get_all_for_volume st v.id).length != 0) = true := by
    simpa [bne_iff_ne, List.length_eq_zero] using hsnap
  simp only [delete, hpol, hhost, hcond, hlen, Bool.not_true, Bool.false_eq_true,
    if_false, if_true]
  refine ⟨?_, ?_, ?_⟩ <;> first | rfl | trivial

/-- C2 witness: the amended theorem applied to the hosted in-use volume
with a snapshot and the force flag set. -/
theorem claim_C2_witness :
    (delete ctxP1 envReserveOk dbHosted 5 vInUseHosted true).result =
      .error (.invalidVolume ("Volume still has " ++
        toString (snapshot_get_all_for_volume dbHosted "vol-i").length ++
        " dependent snapshots")) ∧
    (delete ctxP1 envReserveOk dbHosted 5 vInUseHosted true).db = dbHosted ∧
    (delete ctxP1 envReserveOk dbHosted 5 vInUseHosted true).casts = [] := by
  exact claim_C2_amended ctxP1 envReserveOk dbHosted 5 vInUseHosted true rfl rfl
    (Or.inl rfl) (by decide)

/-- C4: the claim states update_volume_metadata with delete false persists
the merge of the existing and supplied maps without error.  The code is
a slip against its own docstring: the merge branch passes the volume id
string to get_volume_metadata, whose decorated body treats the argument
as the volume mapping, so the merge mode always raises a runtime type
error; the replace branch (delete true) works as documented. -/
theorem claim_C4_merge_mode_crashes :
    update_volume_metadata ctxP1 dbMeta vMeta [("b", "2")] false =
      .error (.typeError "string passed where a volume mapping is required") ∧
    update_volume_metadata ctxP1 dbMeta vMeta [("b", "2")] true =
      .ok ([("b", "2")], volume_metadata_update dbMeta "vol-m" [("b", "2")]) ∧
    volume_metadata_get (volume_metadata_update dbMeta "vol-m" [("b", "2")]) "vol-m" =
      [("b", "2")] := by
  exact ⟨rfl, rfl, rfl⟩

/-- C5: delete on a volume whose host is null dispatches nothing and
destroys the entity — absent from a subsequent get — for every status
and force flag; the negative quota reservation (volumes -1, gigabytes
-size) is always attempted, committed exactly when granted, and its
failure does not prevent the destroy. -/
theorem claim_C5_hostless_delete (ctx : Ctx) (env : Env) (st : Db) (now : Nat)
    (v : Volume) (force : Bool)
    (hpol : ctx.policyOk "delete" = true)
    (hhost : v.host = none) :
    (delete ctx env st now v force).result = .ok () ∧
    volume_get (delete ctx env st now v force).db v.id = none ∧
    (delete ctx env st now v force).casts = [] ∧
    (env.reserveOutcome = .ok () →
      (delete ctx env st now v force).quotaEvents =
        [.reserve (-1) (-v.size) true, .commit ⟨-1, -v.size⟩]) ∧
    (∀ p, env.reserveOutcome = .error p →
      (delete ctx env st now v force).quotaEvents =
        [.reserve (-1) (-v.size) false]) := by
  have hfalsy : pyTruthyOptStr v.host = false := by rw [hhost]; rfl
  cases hro : env.reserveOutcome with
  | ok u =>
      simp only [delete, hpol, hfalsy, hro, Bool.not_true, Bool.not_false,
        if_false, if_true]
      refine ⟨rfl, volume_get_volume_destroy st v.id, rfl, fun _ => rfl, fun p hp => ?_⟩
      exact absurd hp (by simp)
  | error p0 =>
      simp only [delete, hpol, hfalsy, hro, Bool.not_true, Bool.not_false,
        if_false, if_true]
      refine ⟨rfl, volume_get_volume_destroy st v.id, rfl, fun h => ?_, fun p hp => rfl⟩
      exact absurd h (by simp)

/-- C5 witness: the hostless fixture volume is destroyed with no dispatch
and a committed negative reservation. -/
theorem claim_C5_witness :
    (delete ctxP1 envReserveOk dbHostless 5 vHostless true).result = .ok () ∧
    volume_get (delete ctxP1 envReserveOk dbHostless 5 vHostless true).db "vol-h" = none ∧
    (delete ctxP1 envReserveOk dbHostless 5 vHostless true).casts = [] ∧
    (envReserveOk.reserveOutcome = .ok () →
      (delete ctxP1 envReserveOk dbHostless 5 vHostless true).quotaEvents =
        [.reserve (-1) (-1) true, .commit ⟨-1, -1⟩]) ∧
    (∀ p, envReserveOk.reserveOutcome = .error p →
      (delete ctxP1 envReserveOk dbHostless 5 vHostless true).quotaEvents =
        [.reserve (-1) (-1) false]) := by
  have h := claim_C5_hostless_delete ctxP1 envReserveOk dbHostless 5 vHostless true rfl rfl
  simpa using h

/-- C6 counterexample: the claim asserts that create with size given as
the empty string always raises InvalidInput, but when an available
snapshot is supplied the falsy size is replaced by the snapshot volume
size before coercion, and create succeeds, persisting size 3. -/
theorem claim_C6_counterexample :
    c6ceOut.result.toOption.isSome = true ∧
    c6ceOut.result.toOption.map Volume.size = some 3 := by
  exact ⟨rfl, rfl⟩

/-- C6 amended: restricted to create calls without a snapshot argument
(with one, a falsy size such as the empty string or 0 inherits the
snapshot volume size instead), the claim holds: the size argument is
coerced from an integer or string-encoded integer, InvalidInput is
raised exactly when the coerced value is not a positive integer —
before any quota reservation and with the store untouched — and an
accepted size is persisted unchanged on the created volume. -/
theorem claim_C6_size_validation (ctx : Ctx) (env : Env) (st : Db)
    (name description : Option String) (vt : Option VolumeType)
    (md : Option (List (String × String))) (az : Option String)
    (size0 : SizeArg)
    (hpol : ctx.policyOk "create" = true)
    (hres : env.reserveOutcome = .ok ())
    (hnn : size0 ≠ .pynone) :
    (coerceSize size0 = none →
      (∃ msg, (create ctx env st size0 name description none none vt md az none).result =
         .error (.invalidInput msg)) ∧
      (create ctx env st size0 name description none none vt md az none).db = st ∧
      (create ctx env st size0 name description none none vt md az none).quotaEvents = []) ∧
    (∀ n, coerceSize size0 = some n →
      (create ctx env st size0 name description none none vt md az none).result.toOption.map
          Volume.size = some n ∧
      (∀ v, (create ctx env st size0 name description none none vt md az none).result = .ok v →
        v ∈ (create ctx env st size0 name description none none vt md az none).db.volumes)) := by
  constructor
  · intro h0
    obtain ⟨msg, hmsg⟩ := sizeStep_of_coerce_none size0 hnn h0
    have hc := create_sizeStep_error ctx env st size0 name description none vt md az none
      _ hpol hmsg
    exact ⟨⟨msg, by rw [hc]⟩, by rw [hc], by rw [hc]⟩
  · intro m hm
    have hsz := sizeStep_of_coerce_some size0 m hm
    have hc := create_sizeStep_ok ctx env st size0 m name description none vt md az none
      hpol hres hsz
    rw [hc, createAfterReserve_plain]
    refine ⟨rfl, ?_⟩
    intro v hv
    have hveq : newVolume ctx env st m name description none vt md az none = v := by
      simpa using hv
    rw [← hveq]
    simp

/-- C6 witness: size given as the string 2 at the empty store persists a
volume of integer size 2 with no error. -/
theorem claim_C6_witness :
    coerceSize (.str "2") = some 2 ∧
    ((create ctxP1 envReserveOk db0 (.str "2") none none none none none none none
        none).result.toOption.map Volume.size = some 2 ∧
      (∀ v, (create ctxP1 envReserveOk db0 (.str "2") none none none none none none none
          none).result = .ok v →
        v ∈ (create ctxP1 envReserveOk db0 (.str "2") none none none none none none none
          none).db.volumes)) := by
  refine ⟨by decide, ?_⟩
  exact (claim_C6_size_validation ctxP1 envReserveOk db0 none none none none none
    (.str "2") rfl rfl (by decide)).2 2 (by decide)

/-- C7: for a create call with an image id that passes the size gate under
a granted reservation, the byte size the image service reports is
turned into gigabytes by ceiling division by 2 to the 30th, and create
fails with InvalidInput exactly when that ceiling strictly exceeds the
requested size — equivalently when the byte size strictly exceeds size
times 2 to the 30th — and otherwise persists the volume at the
requested size, so the boundary of an image of exactly size gigabytes
succeeds. -/
theorem claim_C7_image_size_ceiling (ctx : Ctx) (env : Env) (st : Db)
    (size : Nat) (imgId : String) (imgBytes : Nat)
    (name description : Option String) (vt : Option VolumeType)
    (md : Option (List (String × String))) (az : Option String)
    (hpol : ctx.policyOk "create" = true)
    (hres : env.reserveOutcome = .ok ())
    (himg : env.imageShow imgId = some imgBytes)
    (hid : imgId ≠ "")
    (hpos : 0 < size) :
    (imgBytes ⌈/⌉ 2 ^ 30 > size ↔ size * 2 ^ 30 < imgBytes) ∧
    (size * 2 ^ 30 < imgBytes →
      (create ctx env st (.int (size : Int)) name description none (some imgId) vt md az
          none).result =
        .error (.invalidInput "Size of specified image is larger than volume size.")) ∧
    (imgBytes ≤ size * 2 ^ 30 →
      (create ctx env st (.int (size : Int)) name description none (some imgId) vt md az
          none).result.toOption.map Volume.size = some (size : Int)) := by
  have hg : (0 : Nat) < 2 ^ 30 := by norm_num
  have hceil := addPredDiv_gt_iff (2 ^ 30) size imgBytes hg
  have hGB : GB = 2 ^ 30 := by norm_num [GB]
  have hns : ¬ ((size : Int) ≤ 0) := by exact_mod_cast Nat.not_le.mpr hpos
  have hsz : sizeStep (.int (size : Int)) = .ok (size : Int) := by
    simp [sizeStep, as_int, hns]
  have hc := create_sizeStep_ok ctx env st (.int (size : Int)) (size : Int)
    name description (some imgId) vt md az none hpol hres hsz
  have hidb : pyTruthyOptStr (some imgId) = true := by
    simp [pyTruthyOptStr, hid]
  refine ⟨by rw [Nat.ceilDiv_eq_add_pred_div]; exact hceil, ?_, ?_⟩
  · intro hover
    have hnat : (imgBytes + 2 ^ 30 - 1) / 2 ^ 30 > size := hceil.mpr hover
    have hcond : ((((imgBytes + GB - 1) / GB : Nat)) : Int) > (size : Int) := by
      rw [hGB]; exact_mod_cast hnat
    have himgstep : imageStep env (some imgId) (size : Int) =
        .error (.invalidInput "Size of specified image is larger than volume size.") := by
      simp only [imageStep, hidb, himg, if_true, Option.getD_some]
      rw [if_pos hcond]
    rw [hc]
    simp only [createAfterReserve, himgstep]
  · intro hle
    have hnotgt : ¬ ((imgBytes + 2 ^ 30 - 1) / 2 ^ 30 > size) := by
      rw [hceil]; omega
    have hcond : ¬ (((((imgBytes + GB - 1) / GB : Nat)) : Int) > (size : Int)) := by
      rw [hGB]; exact_mod_cast hnotgt
    have himgstep : imageStep env (some imgId) (size : Int) = .ok () := by
      simp only [imageStep, hidb, himg, if_true, Option.getD_some]
      rw [if_neg hcond]
    rw [hc]
    simp only [createAfterReserve, himgstep]
    rfl

/-- C7 witness: the theorem applied at a 2 GB volume and an image of
exactly 2 times 1024 cubed bytes, the boundary the claim names. -/
theorem claim_C7_witness :
    ((2 * 1024 * 1024 * 1024) ⌈/⌉ 2 ^ 30 > 2 ↔ 2 * 2 ^ 30 < 2 * 1024 * 1024 * 1024) ∧
    (2 * 2 ^ 30 < 2 * 1024 * 1024 * 1024 →
      (create ctxP1 envExactImage db0 (.int ((2 : Nat) : Int)) none none none
          (some "img-2gb") none none none none).result =
        .error (.invalidInput "Size of specified image is larger than volume size.")) ∧
    (2 * 1024 * 1024 * 1024 ≤ 2 * 2 ^ 30 →
      (create ctxP1 envExactImage db0 (.int ((2 : Nat) : Int)) none none none
          (some "img-2gb") none none none none).result.toOption.map Volume.size =
        some ((2 : Nat) : Int)) :=
  claim_C7_image_size_ceiling ctxP1 envExactImage db0 2 "img-2gb"
    (2 * 1024 * 1024 * 1024) none none none none none rfl rfl rfl (by decide)
    (by decide)

/-- The boolean filter of get_all agrees with its declarative reading. -/
theorem matchOne_iff (v : Volume) (kv : String × FilterVal) :
    matchOne v kv = true ↔ MatchesFilter v kv := by
  obtain ⟨k, fv⟩ := kv
  by_cases hk : k = "metadata"
  · subst hk
    cases fv with
    | map m => simp [matchOne, MatchesFilter, checkMetadataMatch, List.all_eq_true]
    | val p => simp [matchOne, MatchesFilter]
  · have hkb : (k == "metadata") = false := by simp [hk]
    cases fv with
    | val p => simp [matchOne, MatchesFilter, hkb, hk]
    | map m => simp [matchOne, MatchesFilter, hkb, hk]

/-- C3 counterexample: the claim asserts that a non-admin caller passing
the all_tenants flag still receives its own project volumes with the
flag stripped.  The code strips the flag only for admins: for the
non-admin of project p1, whose project holds one volume, get_all with
the all_tenants filter returns the empty list, because the unstripped
key is applied as an exact-match filter on a field no volume has. -/
theorem claim_C3_counterexample :
    volume_get_all_by_project dbHostless "p1" = [vHostless] ∧
    ctxP1.is_admin = false ∧ ctxP1.project_id = "p1" ∧
    get_all ctxP1 dbHostless [("all_tenants", FilterVal.val (.vstr "1"))] = .ok [] := by
  exact ⟨rfl, rfl, rfl, rfl⟩

/-- C3 amended: get_all returns exactly the volumes of the caller scope
that satisfy every supplied filter conjunctively, the metadata filter
holding when each of its pairs is present in the volume metadata map
and every other key being an exact match on the field of that name; an
admin caller carrying the all_tenants key is scoped to all projects
with the key stripped before filtering, while every other caller is
scoped to its own project with the filter set untouched — so a
non-admin passing all_tenants keeps it as an ordinary filter, which no
volume matches. -/
theorem claim_C3_scoped_filtering (ctx : Ctx) (st : Db)
    (opts : List (String × FilterVal))
    (hpol : ctx.policyOk "get_all" = true) :
    ∃ vols, get_all ctx st opts = .ok vols ∧
      ((ctx.is_admin && hasKey opts "all_tenants") = true →
        ∀ v, v ∈ vols ↔ v ∈ volume_get_all st ∧
          ∀ kv ∈ eraseKey opts "all_tenants", MatchesFilter v kv) ∧
      ((ctx.is_admin && hasKey opts "all_tenants") = false →
        ∀ v, v ∈ vols ↔ v ∈ volume_get_all_by_project st ctx.project_id ∧
          ∀ kv ∈ opts, MatchesFilter v kv) := by
  by_cases hcond : (ctx.is_admin && hasKey opts "all_tenants") = true
  · by_cases hemp : (eraseKey opts "all_tenants").isEmpty
    · refine ⟨volume_get_all st, by simp [get_all, hpol, hcond, hemp], ?_, ?_⟩
      · intro _ v
        constructor
        · intro hv
          refine ⟨hv, ?_⟩
          intro kv hkv
          rw [List.isEmpty_iff.mp hemp] at hkv
          cases hkv
        · exact fun h => h.1
      · intro h2
        rw [hcond] at h2
        cases h2
    · refine ⟨(volume_get_all st).filter
        (fun v => (eraseKey opts "all_tenants").all (matchOne v)),
        by simp [get_all, hpol, hcond, hemp], ?_, ?_⟩
      · intro _ v
        rw [List.mem_filter, List.all_eq_true]
        constructor
        · exact fun ⟨h1, h2⟩ => ⟨h1, fun kv hkv => (matchOne_iff v kv).mp (h2 kv hkv)⟩
        · exact fun ⟨h1, h2⟩ => ⟨h1, fun kv hkv => (matchOne_iff v kv).mpr (h2 kv hkv)⟩
      · intro h2
        rw [hcond] at h2
        cases h2
  · have hcf : (ctx.is_admin && hasKey opts "all_tenants") = false :=
      Bool.not_eq_true _ ▸ Bool.eq_false_iff.mpr hcond
    by_cases hemp : opts.isEmpty
    · refine ⟨volume_get_all_by_project st ctx.project_id,
        by simp [get_all, hpol, hcf, hemp], ?_, ?_⟩
      · intro h2
        rw [hcf] at h2
        cases h2
      · intro _ v
        constructor
        · intro hv
          refine ⟨hv, ?_⟩
          intro kv hkv
          rw [List.isEmpty_iff.mp hemp] at hkv
          cases hkv
        · exact fun h => h.1
    · refine ⟨(volume_get_all_by_project st ctx.project_id).filter
        (fun v => opts.all (matchOne v)),
        by simp [get_all, hpol, hcf, hemp], ?_, ?_⟩
      · intro h2
        rw [hcf] at h2
        cases h2
      · intro _ v
        rw [List.mem_filter, List.all_eq_true]
        constructor
        · exact fun ⟨h1, h2⟩ => ⟨h1, fun kv hkv => (matchOne_iff v kv).mp (h2 kv hkv)⟩
        · exact fun ⟨h1, h2⟩ => ⟨h1, fun kv hkv => (matchOne_iff v kv).mpr (h2 kv hkv)⟩

/-- C3 witness: the amended theorem applied to the admin caller with the
all_tenants flag and a metadata filter over the single-volume store. -/
theorem claim_C3_witness :
    ctxAdmin.policyOk "get_all" = true ∧
    (∃ vols, get_all ctxAdmin dbHostless
        [("all_tenants", FilterVal.val (.vstr "1"))] = .ok vols ∧
      ((ctxAdmin.is_admin &&
          hasKey [("all_tenants", FilterVal.val (.vstr "1"))] "all_tenants") = true →
        ∀ v, v ∈ vols ↔ v ∈ volume_get_all dbHostless ∧
          ∀ kv ∈ eraseKey [("all_tenants", FilterVal.val (.vstr "1"))] "all_tenants",
            MatchesFilter v kv) ∧
      ((ctxAdmin.is_admin &&
          hasKey [("all_tenants", FilterVal.val (.vstr "1"))] "all_tenants") = false →
        ∀ v, v ∈ vols ↔ v ∈ volume_get_all_by_project dbHostless ctxAdmin.project_id ∧
          ∀ kv ∈ [("all_tenants", FilterVal.val (.vstr "1"))], MatchesFilter v kv)) :=
  ⟨rfl, claim_C3_scoped_filtering ctxAdmin dbHostless
    [("all_tenants", FilterVal.val (.vstr "1"))] rfl⟩

/-- C8: on a volume whose persisted status is in-use, begin_detaching
writes detaching and a subsequent roll_detaching on the refetched
record writes in-use back, restoring the persisted status; and
roll_detaching is a no-op on any record whose status is not detaching,
writing in-use only from detaching. -/
theorem claim_C8_detaching_roundtrip (ctx : Ctx) (st : Db) (v : Volume)
    (hp1 : ctx.policyOk "begin_detaching" = true)
    (hp2 : ctx.policyOk "roll_detaching" = true)
    (hpu : ctx.policyOk "update" = true)
    (hget : volume_get st v.id = some v)
    (hinuse : v.status = "in-use") :
    begin_detaching ctx st v = .ok (volume_update st v.id [.status "detaching"]) ∧
    volume_get (volume_update st v.id [.status "detaching"]) v.id =
      some (applyAssigns [.status "detaching"] v) ∧
    (applyAssigns [.status "detaching"] v).status = "detaching" ∧
    roll_detaching ctx (volume_update st v.id [.status "detaching"])
        (applyAssigns [.status "detaching"] v) =
      .ok (volume_update (volume_update st v.id [.status "detaching"]) v.id
        [.status "in-use"]) ∧
    (volume_get (volume_update (volume_update st v.id [.status "detaching"]) v.id
        [.status "in-use"]) v.id).map Volume.status = some "in-use" ∧
    (∀ (st' : Db) (w : Volume), w.status ≠ "detaching" →
      roll_detaching ctx st' w = .ok st') := by
  refine ⟨?_, ?_, rfl, ?_, ?_, ?_⟩
  · simp [begin_detaching, update, hp1, hpu]
  · rw [volume_get_volume_update_self, hget]
    rfl
  · have hid : (applyAssigns [.status "detaching"] v).id = v.id :=
      applyAssigns_id _ v
    have hst : (applyAssigns [FieldAssign.status "detaching"] v).status = "detaching" := rfl
    simp [roll_detaching, update, hp2, hpu, hid, hst]
  · rw [volume_get_volume_update_self, volume_get_volume_update_self, hget]
    rfl
  · intro st' w hw
    have hwb : (w.status == "detaching") = false := by simp [hw]
    simp [roll_detaching, hp2, hwb]

/-- C8 witness: the round trip on the in-use fixture volume, plus the
no-op of roll_detaching on its original in-use record. -/
theorem claim_C8_witness :
    begin_detaching ctxP1 dbHosted vInUseHosted =
      .ok (volume_update dbHosted "vol-i" [.status "detaching"]) ∧
    volume_get (volume_update dbHosted "vol-i" [.status "detaching"]) "vol-i" =
      some (applyAssigns [.status "detaching"] vInUseHosted) ∧
    roll_detaching ctxP1 (volume_update dbHosted "vol-i" [.status "detaching"])
        (applyAssigns [.status "detaching"] vInUseHosted) =
      .ok (volume_update (volume_update dbHosted "vol-i" [.status "detaching"]) "vol-i"
        [.status "in-use"]) ∧
    (volume_get (volume_update (volume_update dbHosted "vol-i" [.status "detaching"])
        "vol-i" [.status "in-use"]) "vol-i").map Volume.status = some "in-use" ∧
    roll_detaching ctxP1 dbHosted vInUseHosted = .ok dbHosted := by
  have h := claim_C8_detaching_roundtrip ctxP1 dbHosted vInUseHosted rfl rfl rfl rfl rfl
  exact ⟨h.1, h.2.1, h.2.2.2.1, h.2.2.2.2.1, h.2.2.2.2.2 dbHosted vInUseHosted (by decide)⟩

/-- C9: reserve_volume writes attaching unconditionally for every volume
whose caller passes the policy checks — no hypothesis on the current
status is needed, so a volume in any status, deleting or error or
in-use included, is transitioned — while the separate check_attach is
the only operation validating that the status is available and the
volume is not attached. -/
theorem claim_C9_reserve_unconditional (ctx : Ctx) (st : Db) (v : Volume)
    (hp : ctx.policyOk "reserve_volume" = true)
    (hpu : ctx.policyOk "update" = true)
    (hpc : ctx.policyOk "check_attach" = true)
    (hget : volume_get st v.id = some v) :
    reserve_volume ctx st v = .ok (volume_update st v.id [.status "attaching"]) ∧
    (volume_get (volume_update st v.id [.status "attaching"]) v.id).map Volume.status =
      some "attaching" ∧
    (∀ w : Volume, check_attach ctx w = .ok () ↔
      (w.status = "available" ∧ w.attach_status ≠ "attached")) := by
  refine ⟨?_, ?_, ?_⟩
  · simp [reserve_volume, update, hp, hpu]
  · rw [volume_get_volume_update_self, hget]
    rfl
  · intro w
    constructor
    · intro h
      by_cases h1 : w.status = "available"
      · by_cases h2 : w.attach_status = "attached"
        · simp [check_attach, hpc, h1, h2] at h
        · exact ⟨h1, h2⟩
      · simp [check_attach, hpc, h1] at h
    · rintro ⟨h1, h2⟩
      have h2b : (w.attach_status == "attached") = false := by simp [h2]
      simp [check_attach, hpc, h1, h2b]

/-- C9 witness: the fixture volume is in-use and attached, yet
reserve_volume transitions it straight to attaching, while check_attach
on the same record fails both of its validations. -/
theorem claim_C9_witness :
    reserve_volume ctxP1 dbHosted vInUseHosted =
      .ok (volume_update dbHosted "vol-i" [.status "attaching"]) ∧
    (volume_get (volume_update dbHosted "vol-i" [.status "attaching"]) "vol-i").map
      Volume.status = some "attaching" ∧
    (check_attach ctxP1 vInUseHosted = .ok () ↔
      (vInUseHosted.status = "available" ∧ vInUseHosted.attach_status ≠ "attached")) := by
  have h := claim_C9_reserve_unconditional ctxP1 dbHosted vInUseHosted rfl rfl rfl rfl
  exact ⟨h.1, h.2.1, h.2.2 vInUseHosted⟩

/-- C10: when delete on a hosted volume passes the status and snapshot
checks, the repository update it issues assigns exactly the status
field, set to deleting, and the terminated_at field, set to the current
time: the record afterwards equals the prior record with only those two
fields rewritten, every other field untouched, and the deletion is
dispatched to the volume host topic. -/
theorem claim_C10_delete_frame (ctx : Ctx) (env : Env) (st : Db) (now : Nat)
    (v : Volume) (force : Bool)
    (hpol : ctx.policyOk "delete" = true)
    (hget : volume_get st v.id = some v)
    (hhost : pyTruthyOptStr v.host = true)
    (hstatus : force = true ∨ v.status = "available" ∨ v.status = "error")
    (hsnap : snapshot_get_all_for_volume st v.id = []) :
    (delete ctx env st now v force).result = .ok () ∧
    volume_get (delete ctx env st now v force).db v.id =
      some { v with status := "deleting", terminated_at := some now } ∧
    (delete ctx env st now v force).quotaEvents = [] ∧
    (delete ctx env st now v force).casts =
      [{ topic := queue_get_for env.flags.volume_topic v.host
         method := "delete_volume"
         argVolumeId := some v.id }] := by
  have hcond : (!force && !(v.status == "available" || v.status == "error")) = false := by
    rcases hstatus with h | h | h <;> simp [h]
  have hlen : ((snapshot_get_all_for_volume st v.id).length != 0) = false := by
    simp [hsnap]
  simp only [delete, hpol, hhost, hcond, hlen, Bool.not_true, Bool.false_eq_true,
    if_false, if_true]
  refine ⟨trivial, ?_, trivial, trivial⟩
  rw [volume_get_volume_update_self, hget]
  rfl

/-- C10 witness: the frame property applied to the hosted fixture volume
with the force flag. -/
theorem claim_C10_witness :
    (delete ctxP1 envReserveOk dbMeta 5 vMeta true).result = .ok () ∧
    volume_get (delete ctxP1 envReserveOk dbMeta 5 vMeta true).db "vol-m" =
      some { vMeta with status := "deleting", terminated_at := some 5 } ∧
    (delete ctxP1 envReserveOk dbMeta 5 vMeta true).quotaEvents = [] ∧
    (delete ctxP1 envReserveOk dbMeta 5 vMeta true).casts =
      [{ topic := queue_get_for envReserveOk.flags.volume_topic vMeta.host
         method := "delete_volume"
         argVolumeId := some "vol-m" }] := by
  have h := claim_C10_delete_frame ctxP1 envReserveOk dbMeta 5 vMeta true rfl rfl rfl
    (Or.inl rfl) rfl
  exact h

end Cinder
